import Mathlib

/-! Shallow embedding of `scripts/convert.py` and `scripts/download_and_convert.py`
from the HBCD-ReproSchema repository. External effects (the HTTP download, the
subprocesses, the filesystem) are modelled by an explicit environment record that
describes what the outside world does, and each script's `main` becomes a function
from its parsed arguments and that environment to an outcome record: the final
process exit status, any exception that escaped `main`, the subprocesses that were
invoked together with their exit codes, and which files remain on disk. -/

/-- Whitespace for Python `str.strip` and the regex class `\s` (ASCII range). -/
def isPySpace (c : Char) : Bool :=
  c = ' ' || c = '\t' || c = '\n' || c = '\r' || c = '\x0b' || c = '\x0c'

/-- Python `str.strip()`: drop leading and trailing whitespace. -/
def pyStrip (s : String) : String :=
  ⟨((s.data.dropWhile isPySpace).reverse.dropWhile isPySpace).reverse⟩

/-- Python `str.startswith(pre)`. -/
def pyStartsWith (s pre : String) : Bool := pre.data.isPrefixOf s.data

/-- Helper for Python `str.split(sep)` with a single-character separator. -/
def pySplitCharAux (sep : Char) (acc : List Char) : List Char → List String
  | [] => [⟨acc.reverse⟩]
  | c :: cs =>
      if c = sep then ⟨acc.reverse⟩ :: pySplitCharAux sep [] cs
      else pySplitCharAux sep (c :: acc) cs

/-- Python `str.split(sep)` for a single-character separator. -/
def pySplitChar (sep : Char) (s : String) : List String := pySplitCharAux sep [] s.data

/-- Characters after the first colon of a character list. -/
def afterFirstColonAux : List Char → List Char
  | [] => []
  | c :: cs => if c = ':' then cs else afterFirstColonAux cs

/-- Python `s.split(":", 1)[1]` (only used on strings known to contain a colon). -/
def afterFirstColon (s : String) : String := ⟨afterFirstColonAux s.data⟩

/-- Result of one subprocess invocation, as observed by the scripts. -/
structure ProcResult where
  returncode : Int
  stdout : String
  stderr : String
  deriving DecidableEq

/-- Outcome of `extract_version_from_rda`: either the process exits with a status,
or a list of versions is returned to the caller. -/
inductive ExtractResult where
  | exited (code : Int)
  | versions (vs : List String)
  deriving DecidableEq

/-- Lines 95-102 of `convert.py`: parse the stripped stdout of the R subprocess.
A stdout starting with "ALL_VERSIONS:" yields the comma-separated pieces after the
first colon, each stripped, with empty pieces dropped; any other stdout yields no
versions at all (an "Unexpected output format" message is printed). -/
def parseAllVersions (stdoutRaw : String) : List String :=
  let versions_output := pyStrip stdoutRaw
  if pyStartsWith versions_output "ALL_VERSIONS:" then
    ((pySplitChar ',' (afterFirstColon versions_output)).map pyStrip).filter
      (fun v => v ≠ "")
  else []

/-- Lines 50-114 of `convert.py` (`extract_version_from_rda`), as a function of the
result of the `Rscript -e` subprocess and of the `release_version` argument
(`none` stands for Python `None`). Python's `if release_version:` test is
truthiness, so both `None` and the empty string select the no-version-given arm. -/
def extract_version_from_rda (result : ProcResult) (release_version : Option String) :
    ExtractResult :=
  if result.returncode ≠ 0 then ExtractResult.exited 1
  else
    match release_version with
    | some rv =>
        if rv ≠ "" then
          if (parseAllVersions result.stdout).contains rv then ExtractResult.versions [rv]
          else ExtractResult.exited 1
        else ExtractResult.versions (parseAllVersions result.stdout)
    | none => ExtractResult.versions (parseAllVersions result.stdout)

/-- Statement-side counterpart of claim C3's description of the available-version
parse: the comma-separated remainder after the "ALL_VERSIONS:" prefix (13
characters) of the stripped stdout, each entry whitespace-stripped, empty entries
dropped. -/
def claimAvailable (stdoutRaw : String) : List String :=
  let stripped := pyStrip stdoutRaw
  if pyStartsWith stripped "ALL_VERSIONS:" then
    ((pySplitChar ',' ⟨stripped.data.drop 13⟩).map pyStrip).filter (fun v => v ≠ "")
  else []

/-- Statement-side counterpart of claim C3 (as amended), written from the claim's
words for comparison with `extract_version_from_rda`: a given non-empty release
version is returned as a singleton when it is among the available versions and
makes the process exit with status 1 otherwise; when no release version was given,
or the empty string was given (which Python truthiness treats as absent), the full
available-version list is returned. -/
def extractVersionClaim (stdoutRaw : String) (release_version : Option String) :
    ExtractResult :=
  match release_version with
  | some rv =>
      if rv ≠ "" then
        if (claimAvailable stdoutRaw).contains rv then ExtractResult.versions [rv]
        else ExtractResult.exited 1
      else ExtractResult.versions (claimAvailable stdoutRaw)
  | none => ExtractResult.versions (claimAvailable stdoutRaw)

/-- Names defined in `convert.py` that are visible where line 195 (`shutil.rmtree`)
executes: the module's imports and top-level assignments, together with the local
names `main` has assigned by that point; `shutil` is not among them, because the
module never imports it. -/
def convertVisibleNames : List String :=
  ["argparse", "os", "re", "subprocess", "sys", "Path", "requests",
   "NBDC_REPO", "SCRIPT_DIR", "DATA_DIR", "RDA_FILENAME",
   "download_rda_file", "extract_version_from_rda", "main",
   "parser", "args", "repo_root", "csv_path", "yaml_path", "output_dir",
   "old_output_dir", "rda_path", "versions", "version", "r_script", "cmd",
   "result", "yaml", "f", "config"]

/-- Names defined in `download_and_convert.py` that are visible where line 95
(`System.getenv`) executes: the module's imports and top-level assignments,
together with the local names `main` has assigned by that point; `System` is not
among them. -/
def wrapperVisibleNames : List String :=
  ["argparse", "subprocess", "sys", "Path", "requests",
   "NBDC_REPO", "RDA_FILENAME", "SCRIPT_DIR", "DATA_DIR",
   "download_rda_file", "main",
   "parser", "args", "rda_path", "convert_args", "result",
   "output_lines", "version", "status", "line", "re", "match"]

/-- Python name resolution at a use site: a bare name resolves exactly when it is
among the visible names; otherwise evaluating it raises NameError. -/
def nameDefined (names : List String) (n : String) : Bool := names.contains n

/-- Parsed command-line arguments of `convert.py` (lines 118-137). The `--release`
option has `required=True`, so it always carries a string. -/
structure ConvertArgs where
  release : String
  skip_extract : Bool
  keep_data : Bool

/-- Behaviour of the outside world during one run of `convert.py`: what is on disk
beforehand, whether the HTTP download succeeds, and what each subprocess does. -/
structure ConvertEnv where
  rdaPreexists : Bool
  csvPreexists : Bool
  downloadOk : Bool
  versionsResult : ProcResult
  extractResult : ProcResult
  extractWritesCsv : Bool
  hbcdDirExists : Bool
  legacyDirExists : Bool
  reproschemaFound : Bool
  nbdcReturncode : Int
  nbdcCreatesOutput : Bool
  validateResult : ProcResult

/-- Observable outcome of one run of `convert.py`: exit status (an uncaught
exception makes the interpreter exit 1), the exception that escaped `main` if any,
the subprocesses invoked with their exit codes, whether `data/lst_dds.rda` and the
per-release CSV still exist at termination, and progress markers (the conversion
banner of line 164, reaching the directory cleanup of lines 193-197, invoking the
`reproschema nbdc2reproschema` subprocess, and entering the finally block). -/
structure ConvertOutcome where
  exitCode : Int
  raisedExc : Option String
  procs : List (String × Int)
  rdaRemains : Bool
  csvRemains : Bool
  bannerPrinted : Bool
  rmtreeReached : Bool
  nbdcInvoked : Bool
  finallyRan : Bool

/-- Subprocess trace after step 1 of the try block: the version-listing Rscript,
plus the `extract_release.R` Rscript unless `--skip-extract` was given. -/
def convertProcs1 (args : ConvertArgs) (env : ConvertEnv) : List (String × Int) :=
  if args.skip_extract then [("Rscript -e", env.versionsResult.returncode)]
  else [("Rscript -e", env.versionsResult.returncode),
        ("Rscript extract_release.R", env.extractResult.returncode)]

/-- Whether the per-release CSV exists after step 1 of the try block. -/
def convertCsvNow (args : ConvertArgs) (env : ConvertEnv) : Bool :=
  if args.skip_extract then env.csvPreexists else env.extractWritesCsv

/-- Termination from inside the try block of `convert.py`: the finally clause
(lines 240-248) removes the RDA file and the CSV unless `--keep-data` was given,
and then the run ends with the given exit code or escaping exception. -/
def finishInTry (args : ConvertArgs) (procs : List (String × Int)) (csvNow : Bool)
    (code : Int) (exc : Option String) (rmR nbI : Bool) : ConvertOutcome :=
  { exitCode := code, raisedExc := exc, procs := procs,
    rdaRemains := args.keep_data, csvRemains := args.keep_data && csvNow,
    bannerPrinted := true, rmtreeReached := rmR, nbdcInvoked := nbI,
    finallyRan := true }

/-- Lines 166-248 of `convert.py`: the try block (R extraction, yaml rewrite,
directory cleanup, conversion, validation) with its finally cleanup. Reaching the
directory cleanup with either output directory present makes Python resolve the
bare name `shutil`, which is undefined, so NameError is raised there. -/
def convertTryBlock (args : ConvertArgs) (env : ConvertEnv) : ConvertOutcome :=
  if ¬args.skip_extract ∧ env.extractResult.returncode ≠ 0 then
    finishInTry args (convertProcs1 args env) (convertCsvNow args env) 1 none false false
  else if env.hbcdDirExists || env.legacyDirExists then
    (if nameDefined convertVisibleNames "shutil" then
      finishInTry args (convertProcs1 args env) (convertCsvNow args env) 0 none true false
    else
      finishInTry args (convertProcs1 args env) (convertCsvNow args env) 1
        (some "NameError") true false)
  else if ¬env.reproschemaFound then
    finishInTry args (convertProcs1 args env) (convertCsvNow args env) 1 none true false
  else if env.nbdcReturncode ≠ 0 then
    finishInTry args
      (convertProcs1 args env ++ [("reproschema nbdc2reproschema", env.nbdcReturncode)])
      (convertCsvNow args env) 1 none true true
  else if ¬env.nbdcCreatesOutput then
    finishInTry args
      (convertProcs1 args env ++ [("reproschema nbdc2reproschema", env.nbdcReturncode)])
      (convertCsvNow args env) 1 none true true
  else
    finishInTry args
      (convertProcs1 args env ++ [("reproschema nbdc2reproschema", env.nbdcReturncode),
        ("reproschema validate", env.validateResult.returncode)])
      (convertCsvNow args env) 0 none true true

/-- Lines 117-248 of `convert.py` (`main`): download the RDA file (exit 1 on
failure, before the try block), resolve the versions with
`extract_version_from_rda` (which may exit 1, still before the try block), check
the version list is non-empty, print the conversion banner, and run the try block
with its finally cleanup. -/
def convert_main (args : ConvertArgs) (env : ConvertEnv) : ConvertOutcome :=
  if env.downloadOk then
    match extract_version_from_rda env.versionsResult (some args.release) with
    | ExtractResult.exited c =>
        { exitCode := c, raisedExc := none,
          procs := [("Rscript -e", env.versionsResult.returncode)],
          rdaRemains := true, csvRemains := env.csvPreexists,
          bannerPrinted := false, rmtreeReached := false,
          nbdcInvoked := false, finallyRan := false }
    | ExtractResult.versions versions =>
        if versions.isEmpty then
          { exitCode := 1, raisedExc := none,
            procs := [("Rscript -e", env.versionsResult.returncode)],
            rdaRemains := true, csvRemains := env.csvPreexists,
            bannerPrinted := false, rmtreeReached := false,
            nbdcInvoked := false, finallyRan := false }
        else
          convertTryBlock args env
  else
    { exitCode := 1, raisedExc := none, procs := [],
      rdaRemains := env.rdaPreexists, csvRemains := env.csvPreexists,
      bannerPrinted := false, rmtreeReached := false,
      nbdcInvoked := false, finallyRan := false }

/-- Character class `[\d.]` from the regex in `download_and_convert.py`. -/
def isDigitOrDot (c : Char) : Bool := c.isDigit || c = '.'

/-- Match the regex tail `\s+([\d.]+)` at the start of `cs`, returning the
captured group. Because whitespace and the digit-or-dot class are disjoint, the
greedy match is the unique one: a maximal non-empty whitespace run followed by a
maximal non-empty digit-or-dot run. -/
def matchVersionTail (cs : List Char) : Option String :=
  let sp := cs.takeWhile isPySpace
  let ver := (cs.dropWhile isPySpace).takeWhile isDigitOrDot
  if sp.isEmpty || ver.isEmpty then none else some ⟨ver⟩

/-- Python `re.search` for the pattern `Converting HBCD\s+([\d.]+)` of line 86 of
`download_and_convert.py`: scan for the leftmost position where the literal
"Converting HBCD" (15 characters) is followed by `\s+([\d.]+)`, and return the
captured group. -/
def searchConvertingHBCD : List Char → Option String
  | [] => none
  | c :: cs =>
      if ("Converting HBCD".data).isPrefixOf (c :: cs) then
        match matchVersionTail ((c :: cs).drop 15) with
        | some v => some v
        | none => searchConvertingHBCD cs
      else searchConvertingHBCD cs

/-- Python `needle in hay` on strings (substring containment). -/
def containsSub (needle : List Char) : List Char → Bool
  | [] => needle.isEmpty
  | c :: t => needle.isPrefixOf (c :: t) || containsSub needle t

/-- State of the output-parsing loop of `download_and_convert.py` (lines 79-92):
the version captured so far and the status string. -/
structure ParseState where
  version : Option String
  status : String
  deriving DecidableEq

/-- Lines 82-92 of `download_and_convert.py`: one iteration of the loop over the
child's output lines. -/
def parseLine (st : ParseState) (line : String) : ParseState :=
  if containsSub ("Converting HBCD".data) line.data then
    match searchConvertingHBCD line.data with
    | some v => { st with version := some v }
    | none => st
  else if containsSub ("Error during conversion".data) line.data then
    { st with status := "failed" }
  else if containsSub ("Conversion complete".data) line.data then
    { st with status := "complete" }
  else st

/-- Lines 77-92 of `download_and_convert.py`: strip the child's stdout, split it
into lines, and fold the parsing loop starting from no version and status
"success". -/
def parseChildOutput (stdoutRaw : String) : ParseState :=
  (pySplitChar '\n' (pyStrip stdoutRaw)).foldl parseLine
    { version := none, status := "success" }

/-- Parsed command-line arguments of `download_and_convert.py` (lines 46-60):
`--release` is optional (`none` stands for Python `None`). -/
structure WrapperArgs where
  release : Option String
  create_tag : Bool

/-- Behaviour of the outside world during one run of `download_and_convert.py`:
whether the HTTP download succeeds, whether `subprocess.run` itself raises (for
example FileNotFoundError when the python binary is missing), and the child
process's result when it completes. -/
structure WrapperEnv where
  downloadOk : Bool
  childRunRaises : Bool
  childResult : ProcResult

/-- Observable outcome of one run of `download_and_convert.py`: exit status (an
uncaught exception makes the interpreter exit 1), the exception that escaped
`main` if any, the subprocesses invoked with their exit codes, the lines appended
to the GITHUB_OUTPUT file, the git commands executed, and the result of the
output-parsing loop when it ran. -/
structure WrapperOutcome where
  exitCode : Int
  raisedExc : Option String
  procs : List (String × Int)
  githubOutput : List String
  gitCommands : List (List String)
  parsed : Option ParseState

/-- Exception escape from the try block of `download_and_convert.py`: the only
handler (line 118) catches `subprocess.CalledProcessError`, prints, and exits 1;
any other exception escapes `main` and the interpreter exits with status 1. -/
def wrapperRaise (procs : List (String × Int)) (parsed : Option ParseState)
    (exc : String) : WrapperOutcome :=
  if exc = "CalledProcessError" then
    { exitCode := 1, raisedExc := none, procs := procs, githubOutput := [],
      gitCommands := [], parsed := parsed }
  else
    { exitCode := 1, raisedExc := some exc, procs := procs, githubOutput := [],
      gitCommands := [], parsed := parsed }

/-- Lines 106-110 of `download_and_convert.py`: the complete list of git
invocations appearing in the tag-creation block (a single annotated-tag command;
the block contains no staging, commit, or push command). The block is dead code:
`main` raises NameError at line 95 before it can be reached. -/
def tagStepCommands (version : String) : List (List String) :=
  [["git", "tag", "-a", "v" ++ version, "-m", "HBCD Release " ++ version]]

/-- Lines 45-120 of `download_and_convert.py` (`main`): download the RDA file
(printing the error and exiting 1 on failure), build the child command (when
`--release` was omitted, `args.release` is None and the space-join at line 72
raises TypeError before the try block), run `python scripts/convert.py`, parse its
stdout, and then at line 95 resolve the bare name `System`, which is undefined, so
NameError is raised; the handler catches only CalledProcessError, so the NameError
escapes and nothing is ever appended to the GITHUB_OUTPUT file, no git command
runs, and the `sys.exit(0)` path is unreachable. -/
def wrapper_main (args : WrapperArgs) (env : WrapperEnv) : WrapperOutcome :=
  if env.downloadOk then
    match args.release with
    | none =>
        { exitCode := 1, raisedExc := some "TypeError", procs := [],
          githubOutput := [], gitCommands := [], parsed := none }
    | some _ =>
        if env.childRunRaises then
          wrapperRaise [] none "OSError"
        else
          if nameDefined wrapperVisibleNames "System" then
            { exitCode := 0, raisedExc := none,
              procs := [("python scripts/convert.py", env.childResult.returncode)],
              githubOutput := [], gitCommands := [],
              parsed := some (parseChildOutput env.childResult.stdout) }
          else
            wrapperRaise [("python scripts/convert.py", env.childResult.returncode)]
              (some (parseChildOutput env.childResult.stdout)) "NameError"
  else
    { exitCode := 1, raisedExc := none, procs := [], githubOutput := [],
      gitCommands := [], parsed := none }

/-- CLI flags declared by the argparse parser of `convert.py` (lines 121-136). -/
def convertParserFlags : List String := ["--release", "--skip-extract", "--keep-data"]

/-- CLI flags declared by the argparse parser of `download_and_convert.py`
(lines 49-59). -/
def wrapperParserFlags : List String := ["--release", "--create-tag"]

/-- Line 164 of `convert.py`: the banner printed once the release version has been
validated against the RDA file. -/
def convertBanner (version : String) : String :=
  "=== Converting HBCD release " ++ version ++ " ==="

/-- Modelled from the spec: the version-diffing step ("optionally diffing against
existing git tags to find unconverted releases") is described by the spec but the
script implementing it is not among the source files under src/; following the
spec's words, it keeps exactly the discovered releases that do not already have a
git tag. -/
def unconvertedReleases (discovered tags : List String) : List String :=
  discovered.filter (fun v => !(tags.contains v))

/-- Arguments of a fully ordinary `convert.py` run: release 1.0, extraction not
skipped, data not kept. -/
def okArgs : ConvertArgs := { release := "1.0", skip_extract := false, keep_data := false }

/-- Environment of a fully successful `convert.py` run: the download succeeds, the
R subprocesses succeed, no stale output directory exists, and both reproschema
invocations succeed. -/
def okEnv : ConvertEnv :=
  { rdaPreexists := false, csvPreexists := false, downloadOk := true,
    versionsResult := { returncode := 0, stdout := "ALL_VERSIONS: 1.0", stderr := "" },
    extractResult := { returncode := 0, stdout := "", stderr := "" },
    extractWritesCsv := true, hbcdDirExists := false, legacyDirExists := false,
    reproschemaFound := true, nbdcReturncode := 0, nbdcCreatesOutput := true,
    validateResult := { returncode := 0, stdout := "", stderr := "" } }

/-- Arguments of an ordinary `download_and_convert.py` run. -/
def okWrapperArgs : WrapperArgs := { release := some "1.0", create_tag := true }

/-- Environment of a `download_and_convert.py` run whose child `convert.py`
completes successfully, with the stdout `convert.py` actually produces: the
conversion banner of line 164 followed by the completion messages. -/
def okWrapperEnv : WrapperEnv :=
  { downloadOk := true, childRunRaises := false,
    childResult :=
      { returncode := 0,
        stdout := convertBanner "1.0" ++ "\nConversion complete. Output in HBCD/\nDone!",
        stderr := "" } }

/-- Helper: on a list that starts with the 13 characters of "ALL_VERSIONS:",
taking what follows the first colon is the same as dropping 13 characters,
because the prefix contains exactly one colon, in final position. -/
theorem afterFirstColonAux_all_versions (l : List Char)
    (h : ("ALL_VERSIONS:".data).isPrefixOf l = true) :
    afterFirstColonAux l = l.drop 13 := by
  have hpre : "ALL_VERSIONS:".data <+: l := List.isPrefixOf_iff_prefix.mp h
  obtain ⟨t, ht⟩ := hpre
  have hdata : "ALL_VERSIONS:".data
      = ['A', 'L', 'L', '_', 'V', 'E', 'R', 'S', 'I', 'O', 'N', 'S', ':'] := rfl
  rw [hdata] at ht
  subst ht
  simp [afterFirstColonAux]

/-- Helper: the code's available-version computation agrees with the claim's
description of it on every stdout. -/
theorem parseAllVersions_eq_claimAvailable (s : String) :
    parseAllVersions s = claimAvailable s := by
  unfold parseAllVersions claimAvailable
  by_cases hpre : pyStartsWith (pyStrip s) "ALL_VERSIONS:" = true
  · rw [if_pos hpre, if_pos hpre]
    have ha : afterFirstColon (pyStrip s) = ⟨(pyStrip s).data.drop 13⟩ := by
      unfold afterFirstColon
      rw [afterFirstColonAux_all_versions (pyStrip s).data hpre]
    rw [ha]
  · rw [if_neg hpre, if_neg hpre]

/-- Helper: whenever `extract_version_from_rda` exits the process, the exit status
is 1. -/
theorem extract_exited_eq_one (r : ProcResult) (rv : Option String) (c : Int)
    (h : extract_version_from_rda r rv = ExtractResult.exited c) : c = 1 := by
  unfold extract_version_from_rda at h
  split at h
  · exact (ExtractResult.exited.inj h).symm
  · split at h
    · split at h
      · split at h
        · exact absurd h (by simp)
        · exact (ExtractResult.exited.inj h).symm
      · exact absurd h (by simp)
    · exact absurd h (by simp)

/-- Helper: whenever `extract_version_from_rda` returns a version list, the R
subprocess had exited with status 0. -/
theorem extract_versions_rc (r : ProcResult) (rv : Option String) (vs : List String)
    (h : extract_version_from_rda r rv = ExtractResult.versions vs) :
    r.returncode = 0 := by
  unfold extract_version_from_rda at h
  split at h
  · exact absurd h (by simp)
  · next hrc => omega

/-- Helper: `download_and_convert.py` never terminates with exit status 0: every
path either calls `sys.exit(1)` or lets an exception (TypeError, OSError, or the
NameError of line 95) escape, which makes the interpreter exit 1. -/
theorem wrapper_main_never_zero (args : WrapperArgs) (env : WrapperEnv) :
    (wrapper_main args env).exitCode ≠ 0 := by
  unfold wrapper_main
  split
  · split
    · simp
    · split
      · decide
      · split
        · next hsys => exact absurd hsys (by decide)
        · unfold wrapperRaise
          rw [if_neg (by decide)]
          simp
  · simp

/-- Helper: no run of `download_and_convert.py` ever executes a git command. -/
theorem wrapper_main_gitCommands_empty (args : WrapperArgs) (env : WrapperEnv) :
    (wrapper_main args env).gitCommands = [] := by
  unfold wrapper_main
  split
  · split
    · rfl
    · split
      · rfl
      · split
        · rfl
        · unfold wrapperRaise
          split <;> rfl
  · rfl

/-- Helper: no run of `download_and_convert.py` ever appends a line to the
GITHUB_OUTPUT file. -/
theorem wrapper_main_githubOutput_empty (args : WrapperArgs) (env : WrapperEnv) :
    (wrapper_main args env).githubOutput = [] := by
  unfold wrapper_main
  split
  · split
    · rfl
    · split
      · rfl
      · split
        · rfl
        · unfold wrapperRaise
          split <;> rfl
  · rfl

/-- Helper: inside the try block of `convert.py`, any recorded subprocess other
than the validation step that exited non-zero forces a non-zero script exit. -/
theorem convertTryBlock_c1 (args : ConvertArgs) (env : ConvertEnv)
    (h0 : env.versionsResult.returncode = 0) :
    ∀ p ∈ (convertTryBlock args env).procs, p.1 ≠ "reproschema validate" → p.2 ≠ 0 →
      (convertTryBlock args env).exitCode ≠ 0 := by
  unfold convertTryBlock
  split
  · intro p _ _ _; simp [finishInTry]
  · next h1 =>
    split
    · split
      · next hsh => exact absurd hsh (by decide)
      · intro p _ _ _; simp [finishInTry]
    · split
      · intro p _ _ _; simp [finishInTry]
      · split
        · intro p _ _ _; simp [finishInTry]
        · next hnb =>
          split
          · intro p _ _ _; simp [finishInTry]
          · intro p hp hname hrc
            exfalso
            simp only [finishInTry, List.mem_append, List.mem_cons,
              List.mem_singleton, List.not_mem_nil, or_false] at hp
            unfold convertProcs1 at hp
            rcases hp with hp | hp | hp
            · split at hp
              · simp only [List.mem_singleton] at hp
                subst hp
                exact hrc h0
              · next hskip =>
                simp only [List.mem_cons, List.mem_singleton, List.not_mem_nil,
                  or_false] at hp
                rcases hp with hp | hp
                · subst hp
                  exact hrc h0
                · subst hp
                  exact h1 ⟨hskip, hrc⟩
            · subst hp
              exact hnb hrc
            · subst hp
              exact hname rfl

/-- Helper: every termination from inside the try block of `convert.py` with
`--keep-data` absent leaves neither the RDA file nor the CSV on disk. -/
theorem convertTryBlock_cleanup (args : ConvertArgs) (env : ConvertEnv)
    (hk : args.keep_data = false) :
    (convertTryBlock args env).rdaRemains = false ∧
    (convertTryBlock args env).csvRemains = false := by
  unfold convertTryBlock
  split
  · simp [finishInTry, hk]
  · split
    · split <;> simp [finishInTry, hk]
    · split
      · simp [finishInTry, hk]
      · split
        · simp [finishInTry, hk]
        · split <;> simp [finishInTry, hk]

/-- Helper: when the try block reaches the directory cleanup with a stale output
directory present, the run raises NameError at the `shutil.rmtree` call, runs the
finally cleanup, exits non-zero, and never invokes the conversion subprocess. -/
theorem convertTryBlock_c10a (args : ConvertArgs) (env : ConvertEnv) :
    (convertTryBlock args env).rmtreeReached = true →
    (env.hbcdDirExists || env.legacyDirExists) = true →
      (convertTryBlock args env).raisedExc = some "NameError" ∧
      (convertTryBlock args env).finallyRan = true ∧
      (convertTryBlock args env).exitCode ≠ 0 ∧
      (convertTryBlock args env).nbdcInvoked = false := by
  unfold convertTryBlock
  split
  · intro hr _
    simp [finishInTry] at hr
  · split
    · split
      · next hsh => exact absurd hsh (by decide)
      · intro _ _
        simp [finishInTry]
    · next hdirs =>
      intro _ hd
      exact absurd hd hdirs

/-- Helper: the try block of `convert.py` invokes the conversion subprocess only
when neither stale output directory was present at the cleanup point. -/
theorem convertTryBlock_c10b (args : ConvertArgs) (env : ConvertEnv) :
    (convertTryBlock args env).nbdcInvoked = true →
    (env.hbcdDirExists || env.legacyDirExists) = false := by
  unfold convertTryBlock
  split
  · intro hn; simp [finishInTry] at hn
  · split
    · split
      · next hsh => exact absurd hsh (by decide)
      · intro hn; simp [finishInTry] at hn
    · next hdirs =>
      intro _
      cases hb : (env.hbcdDirExists || env.legacyDirExists)
      · rfl
      · exact absurd hb hdirs

/-- Claim C1, counterexample: in a run of `convert.py` where every step succeeds
except `reproschema validate`, which exits 1, the recorded subprocess trace
contains a failed subprocess and yet the script terminates with exit status 0 —
refuting the claim that any failing subprocess makes the script exit non-zero. -/
theorem c1_counterexample :
    ("reproschema validate", (1 : Int)) ∈
      (convert_main okArgs
        { okEnv with validateResult := { returncode := 1, stdout := "w", stderr := "e" } }).procs ∧
    (convert_main okArgs
      { okEnv with validateResult := { returncode := 1, stdout := "w", stderr := "e" } }).exitCode
      = 0 := by decide

/-- Claim C1, amended: for every run of either script, whenever an invoked
subprocess other than the non-fatal `reproschema validate` step exits with a
non-zero code, the script terminates with a non-zero exit status. -/
theorem c1_subprocess_failure_exits_nonzero :
    (∀ (args : ConvertArgs) (env : ConvertEnv),
      ∀ p ∈ (convert_main args env).procs, p.1 ≠ "reproschema validate" → p.2 ≠ 0 →
        (convert_main args env).exitCode ≠ 0)
  ∧ (∀ (args : WrapperArgs) (env : WrapperEnv),
      ∀ p ∈ (wrapper_main args env).procs, p.2 ≠ 0 →
        (wrapper_main args env).exitCode ≠ 0) := by
  constructor
  · intro args env
    unfold convert_main
    split
    · split
      · next c heq =>
        have hc := extract_exited_eq_one _ _ _ heq
        intro p _ _ _
        simp [hc]
      · next vs heq =>
        split
        · intro p _ _ _; simp
        · exact convertTryBlock_c1 args env (extract_versions_rc _ _ _ heq)
    · intro p hp
      simp at hp
  · intro args env p _ _
    exact wrapper_main_never_zero args env

/-- Claim C1, witness: a concrete run whose version-listing Rscript exits 2 has
that failure in its trace and indeed terminates with a non-zero exit status. -/
theorem c1_witness :
    (convert_main okArgs
      { okEnv with versionsResult := { returncode := 2, stdout := "", stderr := "boom" } }).exitCode
      ≠ 0 :=
  c1_subprocess_failure_exits_nonzero.1 okArgs
    { okEnv with versionsResult := { returncode := 2, stdout := "", stderr := "boom" } }
    ("Rscript -e", 2) (by decide) (by decide) (by decide)

/-- Claim C2, counterexample: a run of `convert.py` without `--keep-data` whose
version-listing Rscript fails exits with status 1 from before the try block, and
the downloaded `data/lst_dds.rda` is still on disk at termination — refuting the
claim that the file is always removed, including on early error exits. -/
theorem c2_counterexample :
    okArgs.keep_data = false ∧
    (convert_main okArgs
      { okEnv with versionsResult := { returncode := 1, stdout := "", stderr := "x" } }).exitCode
      = 1 ∧
    (convert_main okArgs
      { okEnv with versionsResult := { returncode := 1, stdout := "", stderr := "x" } }).rdaRemains
      = true := by decide

/-- Claim C2, amended: for every run of `convert.py` without `--keep-data` that
reaches the conversion phase (prints the release banner and enters the try
block), neither the downloaded RDA file nor the per-release CSV exists on disk at
termination, including runs that terminate early with an error inside that phase;
runs that exit during download or version extraction leave the RDA file behind. -/
theorem c2_cleanup_after_banner (args : ConvertArgs) (env : ConvertEnv)
    (hk : args.keep_data = false) :
    (convert_main args env).bannerPrinted = true →
    (convert_main args env).rdaRemains = false ∧
    (convert_main args env).csvRemains = false := by
  unfold convert_main
  split
  · split
    · intro hb; simp at hb
    · split
      · intro hb; simp at hb
      · intro _
        exact convertTryBlock_cleanup args env hk
  · intro hb; simp at hb

/-- Claim C2, witness: a fully successful run without `--keep-data` prints the
banner and ends with both files removed. -/
theorem c2_witness :
    (convert_main okArgs okEnv).rdaRemains = false ∧
    (convert_main okArgs okEnv).csvRemains = false :=
  c2_cleanup_after_banner okArgs okEnv rfl (by decide)

/-- Claim C3, counterexample: the empty string is a release_version argument that
was given but is not among the available versions, yet `extract_version_from_rda`
returns the full available-version list instead of exiting with status 1, because
Python's `if release_version:` treats the empty string as absent. -/
theorem c3_counterexample :
    ¬(("" : String) ∈ parseAllVersions "ALL_VERSIONS: 1.0") ∧
    extract_version_from_rda
        { returncode := 0, stdout := "ALL_VERSIONS: 1.0", stderr := "" } (some "")
      = ExtractResult.versions ["1.0"] := by decide

/-- Claim C3, amended: when the R subprocess exited 0, `extract_version_from_rda`
behaves exactly as the claim describes, with "given" read as a non-empty
release_version: the available versions are the comma-separated remainder of the
stripped stdout after "ALL_VERSIONS:" (entries stripped, empties dropped, and the
empty list when the prefix is absent); a given non-empty version yields the
singleton when available and exit status 1 otherwise; `None` or the empty string
yields the full list. -/
theorem c3_extract_matches_claim (result : ProcResult) (release_version : Option String)
    (h : result.returncode = 0) :
    extract_version_from_rda result release_version
      = extractVersionClaim result.stdout release_version := by
  unfold extract_version_from_rda extractVersionClaim
  rw [if_neg (by omega)]
  rw [parseAllVersions_eq_claimAvailable]

/-- Claim C3, witness: on a concrete R stdout listing two versions, the code and
the claim-side description agree and select the requested version. -/
theorem c3_witness :
    extract_version_from_rda
        { returncode := 0, stdout := " ALL_VERSIONS: 1.0,2.0 ", stderr := "" } (some "2.0")
      = extractVersionClaim " ALL_VERSIONS: 1.0,2.0 " (some "2.0") ∧
    extractVersionClaim " ALL_VERSIONS: 1.0,2.0 " (some "2.0")
      = ExtractResult.versions ["2.0"] :=
  ⟨c3_extract_matches_claim
      { returncode := 0, stdout := " ALL_VERSIONS: 1.0,2.0 ", stderr := "" }
      (some "2.0") rfl,
   by decide⟩

/-- Claim C4 (code bug): on a run whose child `convert.py` completes successfully
and prints its actual banner, `download_and_convert.py` raises NameError at
`System.getenv` and appends nothing to the GITHUB_OUTPUT file, exiting 1; and
independently, the regex `Converting HBCD\s+([\d.]+)` does not match the banner
line `=== Converting HBCD release 1.0 ===` at all (the word "release" sits
between the literal and the digits), so the parsed version is `None` even though
the parsed status is "complete". -/
theorem c4_github_output_never_written :
    (wrapper_main okWrapperArgs okWrapperEnv).raisedExc = some "NameError" ∧
    (wrapper_main okWrapperArgs okWrapperEnv).githubOutput = [] ∧
    (wrapper_main okWrapperArgs okWrapperEnv).exitCode = 1 ∧
    searchConvertingHBCD (convertBanner "1.0").data = none ∧
    (wrapper_main okWrapperArgs okWrapperEnv).parsed
      = some { version := none, status := "complete" } := by decide

/-- Claim C5: every run of `download_and_convert.py` that completes the
`subprocess.run` of `convert.py` raises an uncaught NameError at line 95 (the
name `System` is undefined and the handler catches only CalledProcessError), so
no git command and no GITHUB_OUTPUT write ever happens; and on no input at all
does the wrapper terminate with exit status 0. -/
theorem c5_system_name_error :
    (∀ (args : WrapperArgs) (env : WrapperEnv) (r : String),
      args.release = some r → env.downloadOk = true → env.childRunRaises = false →
        (wrapper_main args env).raisedExc = some "NameError" ∧
        (wrapper_main args env).exitCode = 1 ∧
        (wrapper_main args env).gitCommands = [] ∧
        (wrapper_main args env).githubOutput = [])
  ∧ (∀ (args : WrapperArgs) (env : WrapperEnv), (wrapper_main args env).exitCode ≠ 0) := by
  constructor
  · intro args env r hr hd hc
    have hsys : nameDefined wrapperVisibleNames "System" = false := by decide
    have hcpe : ¬(("NameError" : String) = "CalledProcessError") := by decide
    simp [wrapper_main, hr, hd, hc, hsys, wrapperRaise, hcpe]
  · exact wrapper_main_never_zero

/-- Claim C5, witness: the NameError outcome on a concrete successful child run. -/
theorem c5_witness :
    (wrapper_main okWrapperArgs okWrapperEnv).raisedExc = some "NameError" ∧
    (wrapper_main okWrapperArgs okWrapperEnv).exitCode = 1 ∧
    (wrapper_main okWrapperArgs okWrapperEnv).gitCommands = [] ∧
    (wrapper_main okWrapperArgs okWrapperEnv).githubOutput = [] :=
  c5_system_name_error.1 okWrapperArgs okWrapperEnv "1.0" rfl rfl rfl

/-- Claim C6, counterexample: when the HTTP download fails, `convert.py` exits
with status 1 having invoked no subprocess and printed no conversion banner, even
though a previously downloaded copy of `lst_dds.rda` is present on disk — there
is no fallback to the cached copy. -/
theorem c6_counterexample :
    (convert_main okArgs { okEnv with downloadOk := false, rdaPreexists := true }).exitCode
      = 1 ∧
    (convert_main okArgs { okEnv with downloadOk := false, rdaPreexists := true }).procs
      = [] ∧
    (convert_main okArgs
      { okEnv with downloadOk := false, rdaPreexists := true }).bannerPrinted
      = false := by decide

/-- Claim C6, amended: when the HTTP download of `lst_dds.rda` fails, each script
aborts the run with exit status 1 before invoking any subprocess; neither script
has a local-cache fallback. -/
theorem c6_download_failure_aborts :
    (∀ (args : ConvertArgs) (env : ConvertEnv), env.downloadOk = false →
      (convert_main args env).exitCode = 1 ∧ (convert_main args env).procs = [] ∧
      (convert_main args env).bannerPrinted = false)
  ∧ (∀ (args : WrapperArgs) (env : WrapperEnv), env.downloadOk = false →
      (wrapper_main args env).exitCode = 1 ∧ (wrapper_main args env).procs = []) := by
  constructor
  · intro args env h
    simp [convert_main, h]
  · intro args env h
    simp [wrapper_main, h]

/-- Claim C6, witness: the wrapper aborts with status 1 on a failed download. -/
theorem c6_witness :
    (wrapper_main okWrapperArgs
      { downloadOk := false, childRunRaises := false,
        childResult := { returncode := 0, stdout := "", stderr := "" } }).exitCode = 1 ∧
    (wrapper_main okWrapperArgs
      { downloadOk := false, childRunRaises := false,
        childResult := { returncode := 0, stdout := "", stderr := "" } }).procs = [] :=
  c6_download_failure_aborts.2 okWrapperArgs
    { downloadOk := false, childRunRaises := false,
      childResult := { returncode := 0, stdout := "", stderr := "" } } rfl

/-- Claim C7: the version-diffing step computes exactly the set difference
between the discovered release names and the existing git tag names — a release
is unconverted precisely when it was discovered and not already tagged. -/
theorem c7_set_difference (v : String) (discovered tags : List String) :
    v ∈ unconvertedReleases discovered tags ↔ v ∈ discovered ∧ v ∉ tags := by
  simp [unconvertedReleases]

/-- Claim C8, counterexample: a run with `--create-tag` whose child conversion
completed (the parsed status is "complete") executes no git command at all — in
particular it neither stages, commits, tags, nor pushes — because `main` raises
NameError before the tag block. -/
theorem c8_counterexample :
    okWrapperArgs.create_tag = true ∧
    (parseChildOutput okWrapperEnv.childResult.stdout).status = "complete" ∧
    (wrapper_main okWrapperArgs okWrapperEnv).gitCommands = [] := by decide

/-- Claim C8, amended: no run of `download_and_convert.py` executes any git
command (the tag block is unreachable behind the NameError of line 95), and the
tag block as written contains exactly one git invocation — an annotated
`git tag`, with no staging, commit, or push command. -/
theorem c8_tag_block_only_tags :
    (∀ (args : WrapperArgs) (env : WrapperEnv), (wrapper_main args env).gitCommands = [])
  ∧ (∀ v : String, tagStepCommands v
      = [["git", "tag", "-a", "v" ++ v, "-m", "HBCD Release " ++ v]])
  ∧ (∀ (v : String) (c : List String), c ∈ tagStepCommands v →
      c.head? = some "git" ∧ c.tail.head? = some "tag" ∧
      c.tail.head? ≠ some "add" ∧ c.tail.head? ≠ some "commit" ∧
      c.tail.head? ≠ some "push") := by
  refine ⟨wrapper_main_gitCommands_empty, fun v => rfl, ?_⟩
  intro v c hc
  simp only [tagStepCommands, List.mem_singleton] at hc
  subst hc
  refine ⟨rfl, rfl, by simp, by simp, by simp⟩

/-- Claim C8, witness: the single command of the tag block, at version 1.0, is a
git tag invocation and not a staging, commit, or push. -/
theorem c8_witness :
    (["git", "tag", "-a", "v" ++ "1.0", "-m", "HBCD Release " ++ "1.0"].head?
      = some "git") ∧
    ["git", "tag", "-a", "v" ++ "1.0", "-m", "HBCD Release " ++ "1.0"].tail.head?
      = some "tag" ∧
    ["git", "tag", "-a", "v" ++ "1.0", "-m", "HBCD Release " ++ "1.0"].tail.head?
      ≠ some "add" ∧
    ["git", "tag", "-a", "v" ++ "1.0", "-m", "HBCD Release " ++ "1.0"].tail.head?
      ≠ some "commit" ∧
    ["git", "tag", "-a", "v" ++ "1.0", "-m", "HBCD Release " ++ "1.0"].tail.head?
      ≠ some "push" :=
  c8_tag_block_only_tags.2.2 "1.0"
    ["git", "tag", "-a", "v" ++ "1.0", "-m", "HBCD Release " ++ "1.0"] (by decide)

/-- Claim C9, counterexample: neither script's argparse parser declares a
`--no-commit` flag, so argparse would reject it as an unrecognized argument. -/
theorem c9_counterexample :
    ¬(("--no-commit" : String) ∈ convertParserFlags) ∧
    ¬(("--no-commit" : String) ∈ wrapperParserFlags) := by decide

/-- Claim C9, amended: the command-line interfaces of the two scripts together
accept exactly the flags `--release`, `--skip-extract`, `--keep-data`, and
`--create-tag`; `--no-commit` is accepted by neither. -/
theorem c9_flag_union (f : String) :
    (f ∈ convertParserFlags ∨ f ∈ wrapperParserFlags) ↔
      f ∈ ["--release", "--skip-extract", "--keep-data", "--create-tag"] := by
  simp only [convertParserFlags, wrapperParserFlags, List.mem_cons, List.not_mem_nil,
    or_false]
  tauto

/-- Claim C10: in `convert.py`, the module never imports `shutil`; in every run
that reaches the pre-conversion directory cleanup with the output directory HBCD
or the legacy directory HBCD2reproschema existing, the `shutil.rmtree` reference
raises NameError — which triggers the finally-block cleanup and aborts the run
with a non-zero status — and the `reproschema nbdc2reproschema` subprocess is
only ever invoked in runs where neither directory pre-existed at that point. -/
theorem c10_shutil_name_error :
    (∀ (args : ConvertArgs) (env : ConvertEnv),
      (convert_main args env).rmtreeReached = true →
      (env.hbcdDirExists = true ∨ env.legacyDirExists = true) →
        (convert_main args env).raisedExc = some "NameError" ∧
        (convert_main args env).finallyRan = true ∧
        (convert_main args env).exitCode ≠ 0 ∧
        (convert_main args env).nbdcInvoked = false)
  ∧ (∀ (args : ConvertArgs) (env : ConvertEnv),
      (convert_main args env).nbdcInvoked = true →
        env.hbcdDirExists = false ∧ env.legacyDirExists = false) := by
  constructor
  · intro args env
    unfold convert_main
    split
    · split
      · intro hr _; simp at hr
      · split
        · intro hr _; simp at hr
        · intro hr hd
          refine convertTryBlock_c10a args env hr ?_
          rcases hd with h | h <;> simp [h]
    · intro hr _; simp at hr
  · intro args env
    unfold convert_main
    split
    · split
      · intro hn; simp at hn
      · split
        · intro hn; simp at hn
        · intro hn
          have hor := convertTryBlock_c10b args env hn
          cases h1 : env.hbcdDirExists <;> cases h2 : env.legacyDirExists <;>
            simp_all
    · intro hn; simp at hn

/-- Claim C10, witness: a run that reaches the directory cleanup with a stale
HBCD directory raises NameError, runs the finally cleanup, exits non-zero, and
never invokes the conversion subprocess. -/
theorem c10_witness :
    (convert_main okArgs { okEnv with hbcdDirExists := true }).raisedExc
      = some "NameError" ∧
    (convert_main okArgs { okEnv with hbcdDirExists := true }).finallyRan = true ∧
    (convert_main okArgs { okEnv with hbcdDirExists := true }).exitCode ≠ 0 ∧
    (convert_main okArgs { okEnv with hbcdDirExists := true }).nbdcInvoked = false :=
  c10_shutil_name_error.1 okArgs { okEnv with hbcdDirExists := true }
    (by decide) (Or.inl rfl)
